import Mathlib

/-!
Shallow embedding of the power-grid table scraper (src/scraper_1.py).

The program opens a browsing session against a fixed URL, reads table
headers once, harvests visible table rows over a paginated table (at most
100 iterations), accumulates normalized 11-cell rows, and finally writes
the accumulated rows with the captured headers to a delimited file.

External effects (browser start, navigation, element waits, clicks, file
writes) are modelled by an environment record that states, for each
effectful step, whether it succeeds and what the DOM contains at that
point.  Each table row element carries the texts of its header cells
(th) and data cells (td).
-/

namespace Scraper

/-- A table row element (tr): the texts of its th cells and its td cells. -/
structure TrElement where
  ths : List String
  tds : List String

/-- Python str.strip(): remove leading and trailing whitespace. -/
def stripChars (cs : List Char) : List Char :=
  ((cs.dropWhile Char.isWhitespace).reverse.dropWhile Char.isWhitespace).reverse

/-- Python str.strip() on a string. -/
def strip (s : String) : String := String.mk (stripChars s.data)

/-- Synthetic fallback header labels, Python line 71:
`headers = [f"Column_{i+1}" for i in range(11)]`. -/
def defaultHeaders : List String :=
  (List.range 11).map (fun i => s!"Column_{i+1}")

/-- Header extraction, lines 53-71: locate the first tr of the initial
table (`find_element` raises when no tr exists, modelled by the empty
list; the exception is caught and synthetic labels substituted).  If the
row has th cells, take the first 11 th texts stripped; otherwise take the
first 11 td texts stripped. -/
def loadHeaders (trs : List TrElement) : List String :=
  match trs with
  | [] => defaultHeaders
  | hr :: _ =>
    if hr.ths.isEmpty then (hr.tds.take 11).map strip
    else (hr.ths.take 11).map strip

/-- Per-row harvest filter, lines 92-98: a row qualifies when it has at
least 11 td cells; its first 11 cell texts are stripped, and the result
is kept only when some stripped cell is non-empty (Python
`any(row_data)`). -/
def harvestRow (cells : List String) : Option (List String) :=
  if 11 ≤ cells.length then
    if ((cells.take 11).map strip).any (fun s => !s.isEmpty) then
      some ((cells.take 11).map strip)
    else none
  else none

/-- Page harvest, lines 88-98: enumerate all tr elements except the first
(header) row and collect the qualifying rows in order. -/
def harvestPage (trs : List TrElement) : List (List String) :=
  (trs.drop 1).filterMap (fun tr => harvestRow tr.tds)

/-- Environment of one pagination iteration: the table located by the
per-page wait (none models the wait raising, line 83), whether a
next-page control is found enabled and displayed (lines 110-132), and
whether clicking it succeeds (lines 134-147). -/
structure PageEnv where
  table : Option (List TrElement)
  nextFound : Bool
  clickOk : Bool

/-- Result of the pagination loop: the final `page_count`, the number of
page-harvest iterations executed, and the accumulated `all_data`. -/
structure LoopResult where
  pageCount : Nat
  harvests : Nat
  data : List (List String)

/-- The pagination loop, lines 73-150, with the remaining iteration
budget (`max_pages - page_count`) as fuel.  Each iteration increments
`page_count`, waits for the table (break on failure), harvests the page,
then looks for a next control: found and clickable means continue,
otherwise break. -/
def pagLoop (pages : Nat → PageEnv) :
    Nat → Nat → Nat → List (List String) → LoopResult
  | 0, pc, h, acc => ⟨pc, h, acc⟩
  | fuel + 1, pc, h, acc =>
    match (pages (pc + 1)).table with
    | none => ⟨pc + 1, h, acc⟩
    | some trs =>
      if (pages (pc + 1)).nextFound then
        if (pages (pc + 1)).clickOk then
          pagLoop pages fuel (pc + 1) (h + 1) (acc ++ harvestPage trs)
        else ⟨pc + 1, h + 1, acc ++ harvestPage trs⟩
      else ⟨pc + 1, h + 1, acc ++ harvestPage trs⟩

/-- The safety limit, line 74: `max_pages = 100`. -/
def maxPages : Nat := 100

/-- The full pagination loop starting from `page_count = 0` with an empty
accumulator. -/
def runLoop (pages : Nat → PageEnv) : LoopResult :=
  pagLoop pages maxPages 0 0 []

/-- What one iteration contributes to the Dataset: nothing when the table
is absent, the harvested rows otherwise. -/
def harvestOpt : Option (List TrElement) → List (List String)
  | none => []
  | some trs => harvestPage trs

/-- Rows harvested from pages pc+1 .. pc+m, in order. -/
def pagesDataFrom (pages : Nat → PageEnv) (pc : Nat) : Nat → List (List String)
  | 0 => []
  | m + 1 => harvestOpt (pages (pc + 1)).table ++ pagesDataFrom pages (pc + 1) m

/-- Write-time normalization, lines 154-162: rows with at least 11 cells
are truncated to 11; non-empty shorter rows are padded with empty
strings; empty rows are dropped. -/
def cleanData (rows : List (List String)) : List (List String) :=
  rows.filterMap (fun row =>
    if 11 ≤ row.length then some (row.take 11)
    else if 0 < row.length then some (row ++ List.replicate (11 - row.length) "")
    else none)

/-- Column-label normalization, line 165: headers truncated to 11 when
long enough, otherwise padded with labels Col_i for i from the current
length up to 10. -/
def padHeaders (headers : List String) : List String :=
  if 11 ≤ headers.length then headers.take 11
  else headers ++ (List.range' headers.length (11 - headers.length)).map
    (fun i => s!"Col_{i}")

/-- Modelled from the spec: the external tabular-output writer (the
pandas DataFrame constructor, absent from src/) builds a table from
ordered rows plus header labels; per the spec it must "construct a table
from ordered rows + header labels", and its construction fails with an
exception when a row's width differs from the number of header labels,
succeeding otherwise. -/
def mkDataFrame (data : List (List String)) (cols : List String) :
    Except String (List (List String) × List String) :=
  if data.all (fun r => r.length == cols.length) then Except.ok (data, cols)
  else Except.error "shape mismatch"

/-- Environment of one full run: whether the browser starts (line 33),
whether navigation succeeds (line 39), the initial table located by the
first wait (none models a timeout, line 49), the per-iteration page
environments, and whether the file write succeeds (line 172). -/
structure RunEnv where
  sessionOk : Bool
  navOk : Bool
  initialTable : Option (List TrElement)
  pages : Nat → PageEnv
  writeOk : Bool

/-- Observable outcome of one full run: the returned triple
(success, output path, row count), whether an output file was written,
whether the finally block called `driver.quit()`, and whether the
top-level except clause caught an exception. -/
structure RunOutcome where
  success : Bool
  outputPath : Option String
  rowCount : Nat
  fileWritten : Bool
  released : Bool
  caughtError : Bool

/-- The full run `scrape_first_11_columns`, lines 15-204.  The driver is
None until the browser starts, so the finally block releases the session
exactly when the start succeeded; every exception is caught at the top
level and converted to the triple (False, None, 0). -/
def run (env : RunEnv) (filename : String) : RunOutcome :=
  if !env.sessionOk then
    ⟨false, none, 0, false, false, true⟩
  else if !env.navOk then
    ⟨false, none, 0, false, true, true⟩
  else
    match env.initialTable with
    | none => ⟨false, none, 0, false, true, true⟩
    | some trs0 =>
      if (runLoop env.pages).data.isEmpty then
        ⟨false, none, 0, false, true, false⟩
      else
        match mkDataFrame (cleanData (runLoop env.pages).data)
            (padHeaders (loadHeaders trs0)) with
        | Except.error _ => ⟨false, none, 0, false, true, true⟩
        | Except.ok _ =>
          if env.writeOk then
            ⟨true, some filename, (cleanData (runLoop env.pages).data).length,
              true, true, false⟩
          else
            ⟨false, none, 0, false, true, true⟩

/-- Environment of the sample run `quick_test_11_columns`. -/
structure QuickEnv where
  sessionOk : Bool
  navOk : Bool
  table : Option (List TrElement)
  writeOk : Bool

/-- Observable outcome of the sample run. -/
structure QuickOutcome where
  success : Bool
  fileWritten : Bool
  released : Bool

/-- Sample-run header extraction, lines 230-236: locate the first tr
(raises when absent, with no synthetic fallback in this function), then
take the first 11 th texts stripped, or td texts when no th exists. -/
def quickHeaders (trs : List TrElement) : Option (List String) :=
  match trs with
  | [] => none
  | hr :: _ =>
    some (if hr.ths.isEmpty then (hr.tds.take 11).map strip
          else (hr.ths.take 11).map strip)

/-- Sample-run data collection, lines 241-248: the tr elements at
indices 1 to 10, keeping for each row with at least 11 td cells its
first 11 stripped texts (no emptiness filter here). -/
def quickData (trs : List TrElement) : List (List String) :=
  ((trs.drop 1).take 10).filterMap (fun tr =>
    if 11 ≤ tr.tds.length then some ((tr.tds.take 11).map strip)
    else none)

/-- The sample run `quick_test_11_columns`, lines 206-266: any exception
(browser start, navigation, table wait, header-row lookup, writer
construction, file write) is caught and the run returns failure; the
file is written only on the fully successful path. -/
def quickTest (env : QuickEnv) : QuickOutcome :=
  if !env.sessionOk then ⟨false, false, false⟩
  else if !env.navOk then ⟨false, false, true⟩
  else
    match env.table with
    | none => ⟨false, false, true⟩
    | some trs =>
      match quickHeaders trs with
      | none => ⟨false, false, true⟩
      | some headers =>
        if (quickData trs).isEmpty then ⟨false, false, true⟩
        else
          match mkDataFrame (quickData trs) headers with
          | Except.error _ => ⟨false, false, true⟩
          | Except.ok _ =>
            if env.writeOk then ⟨true, true, true⟩ else ⟨false, false, true⟩

/-! Concrete environments used to exercise the theorems below. -/

/-- A header row carrying only three th cells. -/
def trShort : TrElement := ⟨["a", "b", "c"], []⟩

/-- A header row carrying 11 th cells. -/
def trHeader : TrElement :=
  ⟨["h1", "h2", "h3", "h4", "h5", "h6", "h7", "h8", "h9", "h10", "h11"], []⟩

/-- A data row whose 11 td cells are all empty after trimming. -/
def trBlank : TrElement :=
  ⟨[], ["", " ", "", "", "", "", "", "", "", "", "\t"]⟩

/-- A data row with 12 td cells, several of them non-empty after
trimming. -/
def trData : TrElement :=
  ⟨[], [" a1 ", "a2", "", "a4", "a5", "a6", "a7", "a8", "a9", "a10", "a11",
        "extra"]⟩

/-- The 11-cell row that trData contributes to the Dataset. -/
def rowFromTrData : List String :=
  ["a1", "a2", "", "a4", "a5", "a6", "a7", "a8", "a9", "a10", "a11"]

/-- A second-page data row with exactly 11 td cells. -/
def trData2 : TrElement :=
  ⟨[], ["b1", "b2", "b3", "b4", "b5", "b6", "b7", "b8", "b9", "b10", "b11"]⟩

/-- Page environments for a two-page traversal: a next control exists on
page 1 only. -/
def pagesTwo : Nat → PageEnv := fun i =>
  if i = 1 then ⟨some [trHeader, trData], true, true⟩
  else if i = 2 then ⟨some [trHeader, trData2], false, true⟩
  else ⟨none, false, false⟩

/-- Page environments where every data row is blank and no next control
exists. -/
def pagesBlank : Nat → PageEnv := fun _ =>
  ⟨some [trHeader, trBlank], false, false⟩

/-- A run environment whose browser start fails. -/
def envNoSession : RunEnv :=
  ⟨false, true, none, fun _ => ⟨none, false, false⟩, true⟩

/-- A run environment whose navigation fails after the browser started. -/
def envNavFail : RunEnv :=
  ⟨true, false, none, fun _ => ⟨none, false, false⟩, true⟩

/-- A run environment where every harvested page is blank. -/
def envBlank : RunEnv :=
  ⟨true, true, some [trHeader, trBlank], pagesBlank, true⟩

/-- A sample-run environment with a 3-label header row and one qualifying
11-cell data row. -/
def envQuick : QuickEnv := ⟨true, true, some [trShort, trData], true⟩

/-! Helper lemmas. -/

/-- Inversion of the per-row filter: an accepted row came from a source
row with at least 11 cells, equals its first 11 stripped texts, and has
a non-empty stripped cell. -/
theorem harvestRow_eq_some {cells : List String} {r : List String}
    (h : harvestRow cells = some r) :
    11 ≤ cells.length ∧ r = (cells.take 11).map strip ∧
      ((cells.take 11).map strip).any (fun s => !s.isEmpty) = true := by
  unfold harvestRow at h
  by_cases h1 : 11 ≤ cells.length
  · rw [if_pos h1] at h
    by_cases h2 :
        ((cells.take 11).map strip).any (fun s => !s.isEmpty) = true
    · rw [if_pos h2] at h
      exact ⟨h1, (Option.some_inj.mp h).symm, h2⟩
    · rw [if_neg h2] at h
      cases h
  · rw [if_neg h1] at h
    cases h

/-- An accepted row has exactly 11 cells. -/
theorem harvestRow_length {cells : List String} {r : List String}
    (h : harvestRow cells = some r) : r.length = 11 := by
  obtain ⟨h1, h2, -⟩ := harvestRow_eq_some h
  subst h2
  simp [List.length_take]
  omega

/-- Membership in a page harvest comes from a non-header source row
accepted by the per-row filter. -/
theorem mem_harvestPage {trs : List TrElement} {r : List String}
    (h : r ∈ harvestPage trs) :
    ∃ tr ∈ trs.drop 1, harvestRow tr.tds = some r := by
  unfold harvestPage at h
  exact List.mem_filterMap.mp h

/-- Every row a page harvest yields has exactly 11 cells. -/
theorem harvestPage_all11 {trs : List TrElement} :
    ∀ r ∈ harvestPage trs, r.length = 11 := by
  intro r hr
  obtain ⟨tr, -, htr⟩ := mem_harvestPage hr
  exact harvestRow_length htr

/-- The pagination loop preserves the all-rows-have-11-cells invariant of
the accumulator. -/
theorem pagLoop_data_all11 (pages : Nat → PageEnv) :
    ∀ (fuel pc h : Nat) (acc : List (List String)),
      (∀ r ∈ acc, r.length = 11) →
      ∀ r ∈ (pagLoop pages fuel pc h acc).data, r.length = 11 := by
  intro fuel
  induction fuel with
  | zero => intro pc h acc hacc; simpa [pagLoop] using hacc
  | succ f ih =>
    intro pc h acc hacc
    have hstep : ∀ trs, ∀ r ∈ acc ++ harvestPage trs, r.length = 11 := by
      intro trs r hr
      rcases List.mem_append.mp hr with hr | hr
      · exact hacc r hr
      · exact harvestPage_all11 r hr
    unfold pagLoop
    cases htab : (pages (pc + 1)).table with
    | none => simpa using hacc
    | some trs =>
      dsimp only
      by_cases h1 : (pages (pc + 1)).nextFound = true
      · by_cases h2 : (pages (pc + 1)).clickOk = true
        · rw [if_pos h1, if_pos h2]
          exact ih (pc + 1) (h + 1) (acc ++ harvestPage trs) (hstep trs)
        · rw [if_pos h1, if_neg h2]
          exact hstep trs
      · rw [if_neg h1]
        exact hstep trs

/-- Write-time normalization is the identity on a dataset whose rows all
have exactly 11 cells. -/
theorem cleanData_eq_self {l : List (List String)}
    (h : ∀ r ∈ l, r.length = 11) : cleanData l = l := by
  induction l with
  | nil => rfl
  | cons row rest ih =>
    have hr : row.length = 11 := h row (List.mem_cons_self _ _)
    have hrest : cleanData rest = rest :=
      ih (fun r hrm => h r (List.mem_cons_of_mem _ hrm))
    have htake : row.take 11 = row := List.take_of_length_le (by omega)
    unfold cleanData at hrest ⊢
    rw [List.filterMap_cons, if_pos (by omega : 11 ≤ row.length), htake, hrest]

/-- The number of harvest iterations grows by at most the remaining
fuel. -/
theorem pagLoop_harvests_le (pages : Nat → PageEnv) :
    ∀ (fuel pc h : Nat) (acc : List (List String)),
      (pagLoop pages fuel pc h acc).harvests ≤ h + fuel := by
  intro fuel
  induction fuel with
  | zero => intro pc h acc; simp [pagLoop]
  | succ f ih =>
    intro pc h acc
    unfold pagLoop
    cases htab : (pages (pc + 1)).table with
    | none => simp
    | some trs =>
      dsimp only
      by_cases h1 : (pages (pc + 1)).nextFound = true
      · by_cases h2 : (pages (pc + 1)).clickOk = true
        · rw [if_pos h1, if_pos h2]
          exact (ih (pc + 1) (h + 1) (acc ++ harvestPage trs)).trans (by omega)
        · rw [if_pos h1, if_neg h2]
          simp
      · rw [if_neg h1]
        simp

/-- When the table is present on iterations pc+1 .. pc+m, advancement
succeeds strictly before iteration pc+m, and no next control is found on
iteration pc+m, the loop terminates there having appended exactly the
harvests of those m pages. -/
theorem pagLoop_data_stop (pages : Nat → PageEnv) :
    ∀ (fuel m pc h : Nat) (acc : List (List String)),
      1 ≤ m → m ≤ fuel →
      (∀ i, pc < i → i ≤ pc + m → ((pages i).table).isSome = true) →
      (∀ i, pc < i → i < pc + m →
        (pages i).nextFound = true ∧ (pages i).clickOk = true) →
      (pages (pc + m)).nextFound = false →
      (pagLoop pages fuel pc h acc).data = acc ++ pagesDataFrom pages pc m := by
  intro fuel
  induction fuel with
  | zero => intro m pc h acc hm hmf _ _ _; omega
  | succ f ih =>
    intro m pc h acc hm hmf htab hadv hstop
    obtain ⟨m', rfl⟩ : ∃ m', m = m' + 1 := ⟨m - 1, by omega⟩
    have htab1 : ((pages (pc + 1)).table).isSome = true :=
      htab (pc + 1) (by omega) (by omega)
    obtain ⟨trs, htrs⟩ := Option.isSome_iff_exists.mp htab1
    unfold pagLoop
    rw [htrs]
    dsimp only
    cases m' with
    | zero =>
      have hstop1 : ¬ (pages (pc + 1)).nextFound = true := by
        have : (pages (pc + 1)).nextFound = false := by simpa using hstop
        simp [this]
      rw [if_neg hstop1]
      simp [pagesDataFrom, harvestOpt, htrs]
    | succ m'' =>
      have hn : (pages (pc + 1)).nextFound = true ∧
          (pages (pc + 1)).clickOk = true :=
        hadv (pc + 1) (by omega) (by omega)
      rw [if_pos hn.1, if_pos hn.2]
      have hrec := ih (m'' + 1) (pc + 1) (h + 1) (acc ++ harvestPage trs)
        (by omega) (by omega)
        (fun i hi1 hi2 => htab i (by omega) (by omega))
        (fun i hi1 hi2 => hadv i (by omega) (by omega))
        (by rw [show pc + 1 + (m'' + 1) = pc + (m'' + 1 + 1) by omega]; exact hstop)
      rw [hrec]
      simp [pagesDataFrom, harvestOpt, htrs, List.append_assoc]

/-- The padded column labels always number exactly 11. -/
theorem padHeaders_length (headers : List String) :
    (padHeaders headers).length = 11 := by
  unfold padHeaders
  by_cases h : 11 ≤ headers.length
  · rw [if_pos h]
    simp [List.length_take]
    omega
  · rw [if_neg h]
    simp [List.length_range']
    omega

/-- The synthetic fallback has exactly 11 labels. -/
theorem defaultHeaders_length : defaultHeaders.length = 11 := by
  simp [defaultHeaders]

/-- Every row the sample-run collection yields has exactly 11 cells. -/
theorem quickData_all11 {trs : List TrElement} :
    ∀ r ∈ quickData trs, r.length = 11 := by
  intro r hr
  unfold quickData at hr
  obtain ⟨tr, -, htr⟩ := List.mem_filterMap.mp hr
  by_cases h : 11 ≤ tr.tds.length
  · rw [if_pos h] at htr
    obtain rfl := Option.some_inj.mp htr
    simp [List.length_take]
    omega
  · rw [if_neg h] at htr
    cases htr

/-! Claim theorems. -/

/-- C1, counterexample: the claim says the HeaderSet after loadHeaders
has length exactly 11 for every extraction outcome, but a successful
extraction from a first row with only three th cells yields three
labels. -/
theorem c1_headerset_counterexample :
    ¬ (loadHeaders [trShort]).length = 11 := by decide

/-- C1, amended: after loadHeaders the HeaderSet is exactly the 11
synthetic labels when extraction fails (no first row), and otherwise has
min(11, cell count of the preferred cell kind) labels, which can be fewer
than 11; only the write-time column labels are always exactly 11. -/
theorem c1_headerset_amended (trs : List TrElement) :
    (trs = [] →
      loadHeaders trs = defaultHeaders ∧ (loadHeaders trs).length = 11) ∧
    (∀ hr rest, trs = hr :: rest →
      (loadHeaders trs).length =
        min 11 (if hr.ths.isEmpty then hr.tds.length else hr.ths.length)) ∧
    (padHeaders (loadHeaders trs)).length = 11 := by
  refine ⟨?_, ?_, padHeaders_length _⟩
  · rintro rfl
    exact ⟨rfl, defaultHeaders_length⟩
  · rintro hr rest rfl
    unfold loadHeaders
    dsimp only
    by_cases h : hr.ths.isEmpty = true
    · rw [if_pos h, if_pos h]
      simp [List.length_take]
    · rw [if_neg h, if_neg h]
      simp [List.length_take]

/-- C1, witness for the amended statement at concrete inputs. -/
theorem c1_headerset_amended_witness :
    loadHeaders ([] : List TrElement) = defaultHeaders ∧
    (loadHeaders [trShort]).length =
      min 11 (if trShort.ths.isEmpty then trShort.tds.length
              else trShort.ths.length) :=
  ⟨((c1_headerset_amended []).1 rfl).1,
   (c1_headerset_amended [trShort]).2.1 trShort [] rfl⟩

/-- C2: whenever the top-level except clause catches an error, the run
returns the triple (False, None, 0) and no output file is written. -/
theorem c2_error_failure (env : RunEnv) (filename : String)
    (h : (run env filename).caughtError = true) :
    (run env filename).success = false ∧
    (run env filename).outputPath = none ∧
    (run env filename).rowCount = 0 ∧
    (run env filename).fileWritten = false := by
  revert h
  unfold run
  split
  · exact fun _ => ⟨rfl, rfl, rfl, rfl⟩
  · split
    · exact fun _ => ⟨rfl, rfl, rfl, rfl⟩
    · split
      · exact fun _ => ⟨rfl, rfl, rfl, rfl⟩
      · split
        · exact fun h => absurd h (by simp)
        · split
          · exact fun _ => ⟨rfl, rfl, rfl, rfl⟩
          · split
            · exact fun h => absurd h (by simp)
            · exact fun _ => ⟨rfl, rfl, rfl, rfl⟩

/-- C2, witness: a failed browser start is caught and yields the failed
triple with no file. -/
theorem c2_error_failure_witness :
    (run envNoSession "out.csv").caughtError = true ∧
    ((run envNoSession "out.csv").success = false ∧
     (run envNoSession "out.csv").outputPath = none ∧
     (run envNoSession "out.csv").rowCount = 0 ∧
     (run envNoSession "out.csv").fileWritten = false) :=
  ⟨rfl, c2_error_failure envNoSession "out.csv" rfl⟩

/-- C3: when the table is present through iteration k, advancement
succeeds before iteration k, and no next control is found on iteration k,
the Dataset at the end of the run is exactly the concatenation of the
harvests of pages 1..k, in order. -/
theorem c3_stop_dataset (pages : Nat → PageEnv) (k : Nat)
    (hk1 : 1 ≤ k) (hk : k ≤ maxPages)
    (htab : ∀ i, 1 ≤ i → i ≤ k → ((pages i).table).isSome = true)
    (hadv : ∀ i, 1 ≤ i → i < k →
      (pages i).nextFound = true ∧ (pages i).clickOk = true)
    (hstop : (pages k).nextFound = false) :
    (runLoop pages).data = pagesDataFrom pages 0 k := by
  have hmain := pagLoop_data_stop pages maxPages k 0 0 [] hk1 hk
    (fun i h1 h2 => htab i (by omega) (by omega))
    (fun i h1 h2 => hadv i (by omega) (by omega))
    (by simpa using hstop)
  simpa [runLoop] using hmain

/-- C3, witness: a two-page traversal whose next control disappears on
page 2. -/
theorem c3_stop_dataset_witness :
    (runLoop pagesTwo).data = pagesDataFrom pagesTwo 0 2 :=
  c3_stop_dataset pagesTwo 2 (by omega) (by decide)
    (fun i h1 h2 => by interval_cases i <;> rfl)
    (fun i h1 h2 => by interval_cases i; exact ⟨rfl, rfl⟩)
    rfl

/-- C4: the pagination loop performs at most 100 page-harvest iterations,
whatever the page environments report. -/
theorem c4_harvest_bound (pages : Nat → PageEnv) :
    (runLoop pages).harvests ≤ maxPages := by
  simpa [runLoop] using pagLoop_harvests_le pages maxPages 0 0 []

/-- C5: a source row with fewer than 11 cells, or whose first 11 cells
are all empty after trimming, is rejected by the harvest filter; every
accepted row has at least 11 cells and a non-empty trimmed cell among
the first 11. -/
theorem c5_row_rejection (cells : List String) :
    ((cells.length < 11 ∨
        ((cells.take 11).map strip).all (fun s => s.isEmpty) = true) →
      harvestRow cells = none) ∧
    (∀ r, harvestRow cells = some r →
      11 ≤ cells.length ∧
      ((cells.take 11).map strip).any (fun s => !s.isEmpty) = true) := by
  constructor
  · rintro (hlt | hall)
    · unfold harvestRow
      rw [if_neg (by omega)]
    · unfold harvestRow
      by_cases h1 : 11 ≤ cells.length
      · rw [if_pos h1, if_neg ?_]
        intro hany
        obtain ⟨s, hs, hes⟩ := List.any_eq_true.mp hany
        have hse := List.all_eq_true.mp hall s hs
        simp [hse] at hes
      · rw [if_neg h1]
  · intro r hr
    obtain ⟨h1, -, h3⟩ := harvestRow_eq_some hr
    exact ⟨h1, h3⟩

/-- C5, witness: a 2-cell row and an all-blank 11-cell row are rejected;
a row with 12 cells and real content is accepted with the stated
properties. -/
theorem c5_row_rejection_witness :
    harvestRow ["a", "b"] = none ∧
    harvestRow trBlank.tds = none ∧
    11 ≤ trData.tds.length ∧
    ((trData.tds.take 11).map strip).any (fun s => !s.isEmpty) = true :=
  ⟨(c5_row_rejection ["a", "b"]).1 (Or.inl (by decide)),
   (c5_row_rejection trBlank.tds).1 (Or.inr (by decide)),
   (c5_row_rejection trData.tds).2 rowFromTrData (by decide)⟩

/-- C6: every accepted source row yields exactly its first 11 cell texts,
each trimmed, so the produced Row has exactly 11 cells and discards any
cell beyond the 11th. -/
theorem c6_accepted_shape (cells r : List String)
    (h : harvestRow cells = some r) :
    r.length = 11 ∧ r = (cells.take 11).map strip :=
  ⟨harvestRow_length h, (harvestRow_eq_some h).2.1⟩

/-- C6, witness: the 12-cell row trData is accepted as its trimmed first
11 cells. -/
theorem c6_accepted_shape_witness :
    rowFromTrData.length = 11 ∧
    rowFromTrData = (trData.tds.take 11).map strip :=
  c6_accepted_shape trData.tds rowFromTrData (by decide)

/-- C7: a run that collects zero rows returns the failed triple
(False, None, 0) and writes no output file, on every path. -/
theorem c7_no_data_failure (env : RunEnv) (filename : String)
    (h : (runLoop env.pages).data = []) :
    (run env filename).success = false ∧
    (run env filename).outputPath = none ∧
    (run env filename).rowCount = 0 ∧
    (run env filename).fileWritten = false := by
  unfold run
  split
  · exact ⟨rfl, rfl, rfl, rfl⟩
  · split
    · exact ⟨rfl, rfl, rfl, rfl⟩
    · split
      · exact ⟨rfl, rfl, rfl, rfl⟩
      · rw [if_pos (by simp [h])]
        exact ⟨rfl, rfl, rfl, rfl⟩

/-- C7, witness: a run whose only page holds one row that is entirely
blank after trimming collects nothing and fails without a file. -/
theorem c7_no_data_failure_witness :
    (runLoop envBlank.pages).data = [] ∧
    ((run envBlank "out2.csv").success = false ∧
     (run envBlank "out2.csv").outputPath = none ∧
     (run envBlank "out2.csv").rowCount = 0 ∧
     (run envBlank "out2.csv").fileWritten = false) :=
  ⟨rfl, c7_no_data_failure envBlank "out2.csv" rfl⟩

/-- C8: once the browser start succeeded, the finally block releases the
session on every exit path of the run. -/
theorem c8_session_release (env : RunEnv) (filename : String)
    (h : env.sessionOk = true) :
    (run env filename).released = true := by
  unfold run
  rw [if_neg (by simp [h])]
  repeat' split
  all_goals rfl

/-- C8, witness: even when navigation fails right after the start, the
session is released. -/
theorem c8_session_release_witness :
    (run envNavFail "out3.csv").released = true :=
  c8_session_release envNavFail "out3.csv" rfl

/-- C9: every row of the accumulated Dataset has exactly 11 cells, so
write-time normalization never pads and returns the accumulated data
unchanged row for row. -/
theorem c9_dataset_invariant (env : RunEnv) :
    ((runLoop env.pages).data.all (fun r => r.length == 11)) = true ∧
    cleanData ((runLoop env.pages).data) = (runLoop env.pages).data := by
  have hall : ∀ r ∈ (runLoop env.pages).data, r.length = 11 := by
    intro r hr
    exact pagLoop_data_all11 env.pages maxPages 0 0 [] (by simp) r hr
  constructor
  · rw [List.all_eq_true]
    intro r hr
    simpa using hall r hr
  · exact cleanData_eq_self hall

/-- C10: in the sample run, a successfully extracted header set with
fewer than 11 labels combined with at least one collected 11-cell row
makes the writer construction fail; the exception is caught, the sample
run returns failure, and no sample file is written. -/
theorem c10_quick_mismatch (env : QuickEnv) (trs : List TrElement)
    (headers : List String)
    (hs : env.sessionOk = true) (hn : env.navOk = true)
    (ht : env.table = some trs)
    (hh : quickHeaders trs = some headers)
    (hlen : headers.length < 11)
    (hd : ¬ quickData trs = []) :
    (quickTest env).success = false ∧ (quickTest env).fileWritten = false := by
  unfold quickTest
  rw [if_neg (by simp [hs]), if_neg (by simp [hn]), ht]
  dsimp only
  rw [hh]
  dsimp only
  rw [if_neg (by simpa using hd)]
  have herr : mkDataFrame (quickData trs) headers =
      Except.error "shape mismatch" := by
    unfold mkDataFrame
    rw [if_neg ?_]
    intro hall
    obtain ⟨r, hr⟩ := List.exists_mem_of_ne_nil _ hd
    have h11 : r.length = 11 := quickData_all11 r hr
    have hbeq := List.all_eq_true.mp hall r hr
    simp [h11] at hbeq
    omega
  rw [herr]
  exact ⟨rfl, rfl⟩

/-- C10, witness: a 3-label header row with one 12-cell data row makes
the sample run fail without writing the sample file. -/
theorem c10_quick_mismatch_witness :
    (quickTest envQuick).success = false ∧
    (quickTest envQuick).fileWritten = false :=
  c10_quick_mismatch envQuick [trShort, trData] ["a", "b", "c"]
    rfl rfl rfl (by decide) (by decide) (by decide)

end Scraper
